import Mathlib

/-!
Verification of the ILM-removal scripts (`remove_ilm_policy.py`,
`get_filtered_templates.py`).

The scripts manipulate JSON values (Python dicts, lists, strings, numbers)
obtained from an Elasticsearch cluster.  We embed the JSON universe as an
inductive type; Python dicts become ordered association lists (Python dicts
preserve insertion order and have unique keys).  Network calls are modelled
by oracle functions `String → Option Json` (`none` models a failed
`curl_request`, i.e. the Python function returning `None`).  A Python
runtime error (uncaught `TypeError` / `KeyError` / `IndexError` /
`AttributeError`) is modelled by an `Option`-valued result being `none`.
-/

/-- JSON values; Python dicts are ordered association lists.  Numbers are
modelled as integers (the scripts never compute with them). -/
inductive Json where
  | null : Json
  | bool : Bool → Json
  | num : Int → Json
  | str : String → Json
  | arr : List Json → Json
  | obj : List (String × Json) → Json

/-- First-occurrence lookup in an association list (Python `d[k]` / `d.get(k)`;
first occurrence is the only occurrence for a genuine Python dict). -/
def lookupKey : List (String × Json) → String → Option Json
  | [], _ => none
  | (k, v) :: rest, key => if k = key then some v else lookupKey rest key

/-- The key list of an association list (Python `d.keys()`). -/
def keys (fs : List (String × Json)) : List String := fs.map Prod.fst

/-- Remove the first binding of `key`, keeping the order of the others
(Python `d.pop(key, None)` on the containing dict). -/
def eraseKey : List (String × Json) → String → List (String × Json)
  | [], _ => []
  | (k, v) :: rest, key => if k = key then rest else (k, v) :: eraseKey rest key

/-- Replace the value at the first binding of `key`, in place (models an
in-place mutation of the nested dict stored at `key`). -/
def setKey : List (String × Json) → String → Json → List (String × Json)
  | [], _, _ => []
  | (k, v) :: rest, key, newV =>
      if k = key then (k, newV) :: rest else (k, v) :: setKey rest key newV

/-- View a JSON value as a dict; anything else is `none` (calling a dict
method on it would raise in Python). -/
def asObj : Json → Option (List (String × Json))
  | .obj fs => some fs
  | _ => none

/-- View a JSON value as a list. -/
def asArr : Json → Option (List Json)
  | .arr xs => some xs
  | _ => none

/-- Python truthiness of a JSON value (`if resp:` / `if lifecycle:`). -/
def truthy : Json → Bool
  | .null => false
  | .bool b => b
  | .num n => decide (n ≠ 0)
  | .str s => decide (s ≠ "")
  | .arr xs => !xs.isEmpty
  | .obj fs => !fs.isEmpty

/-- Follow a path of dict keys from a JSON value; `none` when a step is
missing or the value at a step is not a dict. -/
def lookupPath : Json → List String → Option Json
  | j, [] => some j
  | j, k :: ks =>
      match asObj j with
      | some fs =>
          match lookupKey fs k with
          | some v => lookupPath v ks
          | none => none
      | none => none

/-- The key list of the dict found at a path, when there is one. -/
def keysAt (j : Json) (p : List String) : Option (List String) :=
  match lookupPath j p with
  | some (Json.obj fs) => some (keys fs)
  | _ => none

/-- Boolean membership in a string list. -/
def memB (k : String) : List String → Bool
  | [] => false
  | a :: as => if k = a then true else memB k as

/-- Python `k in d` on a dict: key membership. -/
def hasKey (fs : List (String × Json)) (k : String) : Bool :=
  memB k (keys fs)

/-- Boolean "no duplicate elements" for key lists (every genuine Python dict
satisfies this for its key list). -/
def nodupB : List String → Bool
  | [] => true
  | k :: ks => !memB k ks && nodupB ks

/-- `diverges p q = true` when the two paths differ at their first
difference, i.e. neither path is a prefix of the other.  Used to state the
frame property of the lifecycle strip. -/
def diverges : List String → List String → Bool
  | [], _ => false
  | _ :: _, [] => false
  | a :: p, b :: q => if a = b then diverges p q else true

/-!
## The legacy-name regex

`OLD_FORMAT_PATTERN = re.compile(r".*_c\d{3}_.*")`, used via
`OLD_FORMAT_PATTERN.match(p)` (remove_ilm_policy.py lines 19 and 75).
`re.match` anchors at the start of the string; the leading greedy `.*`
lets the literal part start at any position reachable without crossing a
newline (`.` does not match `\n`); the trailing `.*` may match the empty
string, so it imposes nothing.  `\d` is modelled as an ASCII digit (the
index patterns in play are ASCII). -/

/-- Does `_c`, three digits, `_` start at the head of the character list? -/
def old_format_startsHere : List Char → Bool
  | a :: b :: d1 :: d2 :: d3 :: e :: _ =>
      a = '_' && b = 'c' && d1.isDigit && d2.isDigit && d3.isDigit && e = '_'
  | _ => false

/-- `OLD_FORMAT_PATTERN.match` on a character list: try the literal part at
each position, stopping at a newline (which the leading `.*` cannot cross). -/
def old_format_match : List Char → Bool
  | [] => false
  | c :: cs =>
      if old_format_startsHere (c :: cs) then true
      else if c = '\n' then false
      else old_format_match cs

/-- `bool(OLD_FORMAT_PATTERN.match(s))` on a string. -/
def OLD_FORMAT_PATTERN_match (s : String) : Bool :=
  old_format_match s.data

/-- `any(OLD_FORMAT_PATTERN.match(p) for p in patterns)`
(remove_ilm_policy.py line 75). -/
def matches_old_format (patterns : List String) : Bool :=
  patterns.any OLD_FORMAT_PATTERN_match

/-!
## The lifecycle strip (remove_ilm_policy.py lines 82-88)

`remove_lifecycle_from_template` GETs the template, takes
`resp['index_templates'][0]['index_template']` and runs

  tmpl.get('template', {}).get('settings', {}).get('index', {}).pop('lifecycle', None)

mutating the nested dict in place, then returns `('PUT', path, tmpl)`.
Each `.get(k, {})` yields the stored sub-dict (an alias) when the key is
present and a fresh empty dict otherwise; a present value that is not a
dict makes the next `.get` (or the final `.pop`) raise, modelled as `none`.
The functional result: when the whole `template → settings → index` spine
is present as dicts, the `lifecycle` binding of the `index` dict is
removed in place; otherwise the body is returned unchanged. -/

/-- Pure core of `remove_lifecycle_from_template` (line 87): the body
transformation applied to the fields of the fetched template dict.
`none` models a raised `AttributeError`/`TypeError` (a non-dict value on
the spine). -/
def remove_lifecycle_body (t : List (String × Json)) : Option (List (String × Json)) :=
  match lookupKey t "template" with
  | none => some t
  | some vT =>
      match asObj vT with
      | none => none
      | some tF =>
          match lookupKey tF "settings" with
          | none => some t
          | some vS =>
              match asObj vS with
              | none => none
              | some sF =>
                  match lookupKey sF "index" with
                  | none => some t
                  | some vI =>
                      match asObj vI with
                      | none => none
                      | some iF =>
                          some (setKey t "template" (Json.obj (setKey tF "settings"
                            (Json.obj (setKey sF "index"
                              (Json.obj (eraseKey iF "lifecycle")))))))

/-- `resp['index_templates'][0]['index_template']` (lines 58 and 86):
plain subscripting, so a missing key, a non-dict/non-list value, or an
empty list raises (`none`). -/
def extract_index_template (resp : Json) : Option Json :=
  match asObj resp with
  | none => none
  | some fs =>
      match lookupKey fs "index_templates" with
      | none => none
      | some v =>
          match asArr v with
          | none => none
          | some [] => none
          | some (e :: _) =>
              match asObj e with
              | none => none
              | some ef => lookupKey ef "index_template"

/-- `remove_lifecycle_from_template` (lines 82-88) given the GET response
for `name` (`none` = `curl_request` returned `None`, on which the
subscript on line 86 raises).  Returns the `('PUT', path, body)` triple. -/
def remove_lifecycle_from_template (name : String) (resp : Option Json) :
    Option (String × String × Json) :=
  match resp with
  | none => none
  | some r =>
      match extract_index_template r with
      | none => none
      | some tmplJ =>
          match asObj tmplJ with
          | none => none
          | some tF =>
              match remove_lifecycle_body tF with
              | none => none
              | some tF2 => some ("PUT", "/_index_template/" ++ name, Json.obj tF2)

/-!
## The lifecycle inspectors

`template_has_lifecycle` (remove_ilm_policy.py lines 52-60) checks
`'lifecycle' in settings.get('index', {})` — key presence only.
`find_templates_with_ilm` (get_filtered_templates.py lines 17-25) checks
`settings.get("index", {}).get("lifecycle", {}).get("name")` for
truthiness.  A non-dict value met by a `.get` chain raises, modelled as
`none` (the `in` test against a non-dict value is likewise left
unmodelled as `none`; no template settings tree has one). -/

/-- Lines 59-60 of `remove_ilm_policy.py`, on the fields of the fetched
template body:
`settings = tmpl.get('template', {}).get('settings', {})` then
`return 'lifecycle' in settings.get('index', {})`. -/
def has_lifecycle_settings (tF : List (String × Json)) : Option Bool :=
  match lookupKey tF "template" with
  | none => some false
  | some v1 =>
      match asObj v1 with
      | none => none
      | some f1 =>
          match lookupKey f1 "settings" with
          | none => some false
          | some v2 =>
              match asObj v2 with
              | none => none
              | some f2 =>
                  match lookupKey f2 "index" with
                  | none => some false
                  | some v3 =>
                      match asObj v3 with
                      | none => none
                      | some f3 => some (hasKey f3 "lifecycle")

/-- `template_has_lifecycle` (lines 52-60) given the GET response for the
template (`none` = failed `curl_request`, which the guard on line 56 turns
into `False`).  A truthy non-dict response is unmodelled (`none`). -/
def template_has_lifecycle (resp : Option Json) : Option Bool :=
  match resp with
  | none => some false
  | some r =>
      if truthy r then
        match asObj r with
        | none => none
        | some fs =>
            if hasKey fs "index_templates" then
              match extract_index_template r with
              | none => none
              | some tmplJ =>
                  match asObj tmplJ with
                  | none => none
                  | some tF => has_lifecycle_settings tF
            else some false
      else some false

/-- Per-entry check of `find_templates_with_ilm`
(get_filtered_templates.py lines 21-23), on the fields of the
`index_template` body:
`settings = ....get("template", {}).get("settings", {})`,
`lifecycle = settings.get("index", {}).get("lifecycle", {}).get("name")`,
`if lifecycle:`. -/
def find_ilm_name (tF : List (String × Json)) : Option Bool :=
  match lookupKey tF "template" with
  | none => some false
  | some v1 =>
      match asObj v1 with
      | none => none
      | some f1 =>
          match lookupKey f1 "settings" with
          | none => some false
          | some v2 =>
              match asObj v2 with
              | none => none
              | some f2 =>
                  match lookupKey f2 "index" with
                  | none => some false
                  | some v3 =>
                      match asObj v3 with
                      | none => none
                      | some f3 =>
                          match lookupKey f3 "lifecycle" with
                          | none => some false
                          | some v4 =>
                              match asObj v4 with
                              | none => none
                              | some f4 =>
                                  match lookupKey f4 "name" with
                                  | none => some false
                                  | some v => some (truthy v)

/-!
## The scan (remove_ilm_policy.py lines 62-80)

`scan_templates` fetches `/_index_template`; on a falsy response or a
response without the `index_templates` key it returns `([], [])`.
Otherwise it iterates the entries: `name = entry['name']`,
`patterns = entry['index_template'].get('index_patterns', [])`; entries
whose patterns match go to `candidates` when
`template_has_lifecycle(... name)` is true and to `skipped` otherwise;
non-matching entries go to neither list (excluded).  Per-entry shape
violations raise (`none`): a missing `name`/`index_template` key, a
non-dict entry, non-string patterns.  The cluster serves entries of the
modelled shape. -/

/-- Read a JSON array as a list of strings (each element must be a string,
as `OLD_FORMAT_PATTERN.match(p)` raises on a non-string). -/
def asStrList : List Json → Option (List String)
  | [] => some []
  | Json.str s :: rest =>
      match asStrList rest with
      | some ss => some (s :: ss)
      | none => none
  | _ :: _ => none

/-- `name = entry['name']`; `patterns = entry['index_template'].get('index_patterns', [])`
(lines 69 and 74). -/
def getPatterns (entry : Json) : Option (String × List String) :=
  match asObj entry with
  | none => none
  | some ef =>
      match lookupKey ef "name" with
      | some (Json.str nm) =>
          match lookupKey ef "index_template" with
          | none => none
          | some itJ =>
              match asObj itJ with
              | none => none
              | some itF =>
                  match lookupKey itF "index_patterns" with
                  | none => some (nm, [])
                  | some pJ =>
                      match asArr pJ with
                      | none => none
                      | some ps =>
                          match asStrList ps with
                          | none => none
                          | some ss => some (nm, ss)
      | _ => none

/-- The loop of `scan_templates` (lines 68-79) over the entry list;
`inspect name` is the GET response used by `template_has_lifecycle`. -/
def scan_loop (entries : List Json) (inspect : String → Option Json) :
    Option (List String × List String) :=
  match entries with
  | [] => some ([], [])
  | e :: rest =>
      match getPatterns e with
      | none => none
      | some (name, pats) =>
          if matches_old_format pats then
            match template_has_lifecycle (inspect name) with
            | none => none
            | some true =>
                match scan_loop rest inspect with
                | some (c, s) => some (name :: c, s)
                | none => none
            | some false =>
                match scan_loop rest inspect with
                | some (c, s) => some (c, name :: s)
                | none => none
          else scan_loop rest inspect

/-- `scan_templates` (lines 62-80): `catalogResp` is the `/_index_template`
GET response (`none` = failed fetch).  Returns `(candidates, skipped)`;
a truthy non-dict catalog is unmodelled (`none`). -/
def scan_templates (catalogResp : Option Json)
    (inspect : String → Option Json) : Option (List String × List String) :=
  match catalogResp with
  | none => some ([], [])
  | some comp =>
      if truthy comp then
        match asObj comp with
        | none => none
        | some fs =>
            if hasKey fs "index_templates" then
              match lookupKey fs "index_templates" with
              | none => none
              | some v =>
                  match asArr v with
                  | none => none
                  | some entries => scan_loop entries inspect
            else some ([], [])
      else some ([], [])

/-- A well-shaped catalog entry: `{"name": nm, "index_template": {"index_patterns": [...]}}`. -/
def mkEntry (nm : String) (pats : List String) : Json :=
  Json.obj [("name", Json.str nm),
            ("index_template", Json.obj [("index_patterns", Json.arr (pats.map Json.str))])]

/-- A well-shaped catalog response: `{"index_templates": [entries...]}`. -/
def mkCatalog (es : List (String × List String)) : Json :=
  Json.obj [("index_templates", Json.arr (es.map (fun e => mkEntry e.1 e.2)))]

/-!
## The executor (remove_ilm_policy.py lines 109-121)

`execute_removal` returns at once on an empty eligible list; then aborts
unless `input(...).strip().lower() == 'proceed'` (Python strips ASCII
whitespace and lowercases — modelled with `String.trim` / `String.toLower`);
then for each name re-fetches, strips, and PUTs, printing OK/FAIL from the
truthiness of the PUT response.  A raised exception inside
`remove_lifecycle_from_template` (e.g. the re-fetch returned `None`)
propagates and kills the loop. -/

/-- Python `str.isspace` on the ASCII whitespace characters stripped by
`str.strip()`. -/
def pyIsSpace (c : Char) : Bool :=
  c = ' ' || c = '\t' || c = '\n' || c = '\r' || c = '\x0b' || c = '\x0c'

/-- Python `s.strip().lower()` (line 114), as a character list; `lower` is
modelled on ASCII letters (the confirmation token is ASCII). -/
def pyStripLower (s : String) : List Char :=
  (((s.data.dropWhile pyIsSpace).reverse.dropWhile pyIsSpace).reverse).map Char.toLower

/-- Outcome of an `execute_removal` run: `writes` are the `(path, body)`
PUT requests actually issued, `outcomes` the per-item OK/FAIL results;
`crashed` marks an uncaught exception ending the loop early. -/
inductive ExecResult where
  | noTemplates : ExecResult
  | aborted : ExecResult
  | ran : List (String × Json) → List Bool → ExecResult
  | crashed : List (String × Json) → List Bool → ExecResult

/-- The PUT requests a run issued against the cluster. -/
def writesOf : ExecResult → List (String × Json)
  | .ran ws _ => ws
  | .crashed ws _ => ws
  | _ => []

/-- The loop of `execute_removal` (lines 117-121); `net name` is the GET
response for the re-fetch, `write path body` the truthiness of the PUT
response. -/
def exec_loop (templates : List String) (net : String → Option Json)
    (write : String → Json → Bool) : ExecResult :=
  match templates with
  | [] => .ran [] []
  | name :: rest =>
      match remove_lifecycle_from_template name (net name) with
      | none => .crashed [] []
      | some (_, path, body) =>
          match exec_loop rest net write with
          | .ran ws os => .ran ((path, body) :: ws) (write path body :: os)
          | .crashed ws os => .crashed ((path, body) :: ws) (write path body :: os)
          | r => r

/-- `execute_removal` (lines 109-121) with the operator's input string. -/
def execute_removal (templates : List String) (inp : String)
    (net : String → Option Json) (write : String → Json → Bool) : ExecResult :=
  if templates.isEmpty then .noTemplates
  else if pyStripLower inp ≠ "proceed".data then .aborted
  else exec_loop templates net write

/-!
## The plan generator (remove_ilm_policy.py lines 90-107)

`generate_dry_run_plan` prints a message and creates no file on an empty
eligible list; otherwise it writes, per template, a GET curl command and a
PUT curl command with the stripped body.  The only network requests it
issues are the GETs inside `remove_lifecycle_from_template`; a raised
exception there leaves a truncated artifact. -/

/-- Plan artifact: per eligible template one `(name, PUT path, PUT body)`
record, each preceded in the file by the matching GET command. -/
inductive PlanResult where
  | noPlan : PlanResult
  | plan : List (String × String × Json) → PlanResult
  | crashedPlan : List (String × String × Json) → PlanResult

/-- The loop of `generate_dry_run_plan` (lines 98-106); the second
component collects the `(method, path)` network requests issued. -/
def plan_go (templates : List String) (net : String → Option Json) :
    PlanResult × List (String × String) :=
  match templates with
  | [] => (.plan [], [])
  | name :: rest =>
      match remove_lifecycle_from_template name (net name) with
      | none => (.crashedPlan [], [("GET", "/_index_template/" ++ name)])
      | some x =>
          ((match (plan_go rest net).1 with
            | .plan ps => .plan ((name, x.2.1, x.2.2) :: ps)
            | .crashedPlan ps => .crashedPlan ((name, x.2.1, x.2.2) :: ps)
            | .noPlan => .noPlan),
           ("GET", "/_index_template/" ++ name) :: (plan_go rest net).2)

/-- `generate_dry_run_plan` (lines 90-107). -/
def generate_dry_run_plan (templates : List String) (net : String → Option Json) :
    PlanResult × List (String × String) :=
  if templates.isEmpty then (.noPlan, []) else plan_go templates net

/-!
## Well-formedness and concrete fixtures
-/

/-- The key list of the `index` dict on the strip spine has no duplicates
(true of every value a genuine Python dict can take; the association-list
embedding also admits duplicate keys, which Python cannot represent). -/
def indexKeysNodup (t : List (String × Json)) : Bool :=
  match (lookupKey t "template").bind asObj with
  | none => true
  | some tF =>
      match (lookupKey tF "settings").bind asObj with
      | none => true
      | some sF =>
          match (lookupKey sF "index").bind asObj with
          | none => true
          | some iF => nodupB (keys iF)

/-- A well-shaped GET response for a template whose settings carry
`index.lifecycle.name = "p"`. -/
def resp0 : Json :=
  Json.obj [("index_templates", Json.arr [Json.obj [("index_template",
    Json.obj [("template", Json.obj [("settings",
      Json.obj [("index", Json.obj [("lifecycle",
        Json.obj [("name", Json.str "p")])])])])])]])]

/-- The template body of `resp0` after the strip. -/
def body0 : Json :=
  Json.obj [("template", Json.obj [("settings", Json.obj [("index", Json.obj [])])])]

/-- A network where every template GET returns `resp0`. -/
def net0 : String → Option Json := fun _ => some resp0

/-- A network where the GET for template `B` fails (`curl_request`
returns `None`) and every other GET returns `resp0`. -/
def netB : String → Option Json := fun n => if n = "B" then none else some resp0

/-- A template body with a lifecycle sub-tree holding two keys
(`name` and `rollover_alias`) plus unrelated keys at several levels. -/
def t1 : List (String × Json) :=
  [("template", Json.obj [("settings", Json.obj [("index", Json.obj
      [("lifecycle", Json.obj [("name", Json.str "p"), ("rollover_alias", Json.str "r")]),
       ("number_of_shards", Json.str "1")])]),
    ("mappings", Json.obj [])]),
   ("priority", Json.num 5)]

/-- `t1` after the strip: the whole `lifecycle` sub-tree is gone, all
other keys intact in order. -/
def t1s : List (String × Json) :=
  [("template", Json.obj [("settings", Json.obj [("index", Json.obj
      [("number_of_shards", Json.str "1")])]),
    ("mappings", Json.obj [])]),
   ("priority", Json.num 5)]

/-- A template body whose `lifecycle` sub-tree is present but empty — it
carries no policy name. -/
def t7 : List (String × Json) :=
  [("template", Json.obj [("settings", Json.obj [("index", Json.obj
      [("lifecycle", Json.obj [])])])])]


/-- Fixture catalog for the scan claims: one matching and one
non-matching template. -/
def es0 : List (String × List String) :=
  [("tmplA", ["logs_c123_v2"]), ("tmplB", ["logs_v2"])]

/-- Inspection network answering `resp0` (a template with a lifecycle)
for every name. -/
def inspect0 : String → Option Json := fun _ => some resp0

/-- The lifecycle answer encoded by `inspect0`/`resp0`. -/
def hL0 : String → Bool := fun _ => true

/-! ## Association-list lemmas -/

theorem asObj_eq_some (v : Json) (fs : List (String × Json)) (h : asObj v = some fs) :
    v = Json.obj fs := by
  cases v <;> simp_all [asObj]

theorem lookupKey_setKey_self (fs : List (String × Json)) (key : String) (v w : Json)
    (h : lookupKey fs key = some w) : lookupKey (setKey fs key v) key = some v := by
  induction fs with
  | nil => simp [lookupKey] at h
  | cons kv rest ih =>
      obtain ⟨k, u⟩ := kv
      by_cases hk : k = key
      · subst hk; simp [setKey, lookupKey]
      · simp [lookupKey, hk] at h
        simp [setKey, lookupKey, hk]
        exact ih h

theorem lookupKey_setKey_ne (fs : List (String × Json)) (key k : String) (v : Json)
    (h : k ≠ key) : lookupKey (setKey fs key v) k = lookupKey fs k := by
  induction fs with
  | nil => simp [setKey]
  | cons kv rest ih =>
      obtain ⟨k', u⟩ := kv
      by_cases hk : k' = key
      · subst hk
        have hne : ¬ k' = k := fun hc => h hc.symm
        simp [setKey, lookupKey, hne]
      · by_cases hk2 : k' = k
        · simp [setKey, lookupKey, hk, hk2, h]
        · simp [setKey, lookupKey, hk, hk2, ih]

theorem keys_setKey (fs : List (String × Json)) (key : String) (v : Json) :
    keys (setKey fs key v) = keys fs := by
  induction fs with
  | nil => simp [setKey]
  | cons kv rest ih =>
      obtain ⟨k', u⟩ := kv
      by_cases hk : k' = key
      · simp [setKey, keys, hk]
      · simp [setKey, keys, hk]
        simpa [keys] using ih

theorem setKey_lookup_self (fs : List (String × Json)) (key : String) (v : Json)
    (h : lookupKey fs key = some v) : setKey fs key v = fs := by
  induction fs with
  | nil => simp [lookupKey] at h
  | cons kv rest ih =>
      obtain ⟨k', u⟩ := kv
      by_cases hk : k' = key
      · subst hk
        simp [lookupKey] at h
        simp [setKey, h]
      · simp [lookupKey, hk] at h
        simp [setKey, hk, ih h]

theorem eraseKey_of_not_mem (fs : List (String × Json)) (key : String)
    (h : lookupKey fs key = none) : eraseKey fs key = fs := by
  induction fs with
  | nil => simp [eraseKey]
  | cons kv rest ih =>
      obtain ⟨k', u⟩ := kv
      by_cases hk : k' = key
      · simp [lookupKey, hk] at h
      · simp [lookupKey, hk] at h
        simp [eraseKey, hk, ih h]

theorem lookupKey_eraseKey_ne (fs : List (String × Json)) (key k : String)
    (h : k ≠ key) : lookupKey (eraseKey fs key) k = lookupKey fs k := by
  induction fs with
  | nil => simp [eraseKey]
  | cons kv rest ih =>
      obtain ⟨k', u⟩ := kv
      by_cases hk : k' = key
      · subst hk
        have hne : ¬ k' = k := fun hc => h hc.symm
        simp [eraseKey, lookupKey, hne]
      · by_cases hk2 : k' = k
        · simp [eraseKey, lookupKey, hk, hk2, h]
        · simp [eraseKey, lookupKey, hk, hk2, ih]

theorem lookupKey_none_of_not_memB (fs : List (String × Json)) (k : String)
    (h : memB k (keys fs) = false) : lookupKey fs k = none := by
  induction fs with
  | nil => simp [lookupKey]
  | cons kv rest ih =>
      obtain ⟨k', u⟩ := kv
      simp [keys, memB] at h
      by_cases hk : k = k'
      · simp [hk] at h
      · simp [hk] at h
        have hne : ¬ k' = k := fun hc => hk hc.symm
        simp [lookupKey, hne]
        exact ih (by simpa [keys] using h)

theorem lookupKey_eraseKey_self (fs : List (String × Json)) (key : String)
    (h : nodupB (keys fs) = true) : lookupKey (eraseKey fs key) key = none := by
  induction fs with
  | nil => simp [eraseKey, lookupKey]
  | cons kv rest ih =>
      obtain ⟨k', u⟩ := kv
      simp [keys, nodupB] at h
      by_cases hk : k' = key
      · subst hk
        simp [eraseKey]
        exact lookupKey_none_of_not_memB rest k' (by simpa [keys] using h.1)
      · simp [eraseKey, hk, lookupKey, hk]
        have := ih (by simpa [keys] using h.2)
        simpa [hk] using this

theorem memB_eq_isSome_lookupKey (fs : List (String × Json)) (k : String) :
    memB k (keys fs) = (lookupKey fs k).isSome := by
  induction fs with
  | nil => simp [keys, memB, lookupKey]
  | cons kv rest ih =>
      obtain ⟨k', u⟩ := kv
      by_cases hk : k = k'
      · simp [keys, memB, lookupKey, hk]
      · have hne : ¬ k' = k := fun hc => hk hc.symm
        simp [keys, memB, lookupKey, hk, hne]
        simpa [keys] using ih

theorem lookupPath_obj_cons (fs : List (String × Json)) (k : String) (ks : List String) :
    lookupPath (Json.obj fs) (k :: ks) =
      (match lookupKey fs k with
       | some v => lookupPath v ks
       | none => none) := rfl

theorem diverges_nil_right (p : List String) : diverges p [] = false := by
  cases p <;> rfl

/-- C1: the strip transformation preserves everything off the lifecycle
spine: any path that diverges from
`template.settings.index.lifecycle` looks up to the same value before and
after; when the lifecycle key is absent at that path the output is the
input, unchanged; and the top-level key sequence (order included) is
preserved. -/
theorem remove_lifecycle_frame (t t' : List (String × Json))
    (h : remove_lifecycle_body t = some t') :
    (∀ p : List String, diverges p ["template", "settings", "index", "lifecycle"] = true →
        lookupPath (Json.obj t') p = lookupPath (Json.obj t) p) ∧
    (lookupPath (Json.obj t) ["template", "settings", "index", "lifecycle"] = none → t' = t) ∧
    keys t' = keys t := by
  unfold remove_lifecycle_body at h
  cases hT : lookupKey t "template" with
  | none =>
      rw [hT] at h
      simp at h
      subst h
      exact ⟨fun p hp => rfl, fun _ => rfl, rfl⟩
  | some vT =>
      rw [hT] at h
      dsimp only at h
      cases hTo : asObj vT with
      | none => rw [hTo] at h; simp at h
      | some tF =>
          rw [hTo] at h
          dsimp only at h
          rw [asObj_eq_some vT tF hTo] at hT
          cases hS : lookupKey tF "settings" with
          | none =>
              rw [hS] at h
              simp at h
              subst h
              exact ⟨fun p hp => rfl, fun _ => rfl, rfl⟩
          | some vS =>
              rw [hS] at h
              dsimp only at h
              cases hSo : asObj vS with
              | none => rw [hSo] at h; simp at h
              | some sF =>
                  rw [hSo] at h
                  dsimp only at h
                  rw [asObj_eq_some vS sF hSo] at hS
                  cases hI : lookupKey sF "index" with
                  | none =>
                      rw [hI] at h
                      simp at h
                      subst h
                      exact ⟨fun p hp => rfl, fun _ => rfl, rfl⟩
                  | some vI =>
                      rw [hI] at h
                      dsimp only at h
                      cases hIo : asObj vI with
                      | none => rw [hIo] at h; simp at h
                      | some iF =>
                          rw [hIo] at h
                          dsimp only at h
                          rw [asObj_eq_some vI iF hIo] at hI
                          simp at h
                          subst h
                          refine ⟨?_, ?_, ?_⟩
                          · intro p hp
                            cases p with
                            | nil => simp [diverges] at hp
                            | cons a p1 =>
                                by_cases ha : a = "template"
                                · subst ha
                                  simp [diverges] at hp
                                  rw [lookupPath_obj_cons, lookupPath_obj_cons,
                                    lookupKey_setKey_self t "template" _ _ hT, hT]
                                  dsimp only
                                  cases p1 with
                                  | nil => simp [diverges] at hp
                                  | cons b p2 =>
                                      by_cases hb : b = "settings"
                                      · subst hb
                                        simp [diverges] at hp
                                        rw [lookupPath_obj_cons, lookupPath_obj_cons,
                                          lookupKey_setKey_self tF "settings" _ _ hS, hS]
                                        dsimp only
                                        cases p2 with
                                        | nil => simp [diverges] at hp
                                        | cons c p3 =>
                                            by_cases hc : c = "index"
                                            · subst hc
                                              simp [diverges] at hp
                                              rw [lookupPath_obj_cons, lookupPath_obj_cons,
                                                lookupKey_setKey_self sF "index" _ _ hI, hI]
                                              dsimp only
                                              cases p3 with
                                              | nil => simp [diverges] at hp
                                              | cons d p4 =>
                                                  by_cases hd : d = "lifecycle"
                                                  · subst hd
                                                    simp [diverges, diverges_nil_right] at hp
                                                  · rw [lookupPath_obj_cons, lookupPath_obj_cons,
                                                      lookupKey_eraseKey_ne iF "lifecycle" d hd]
                                            · rw [lookupPath_obj_cons, lookupPath_obj_cons,
                                                lookupKey_setKey_ne sF "index" c _ hc]
                                      · rw [lookupPath_obj_cons, lookupPath_obj_cons,
                                          lookupKey_setKey_ne tF "settings" b _ hb]
                                · rw [lookupPath_obj_cons, lookupPath_obj_cons,
                                    lookupKey_setKey_ne t "template" a _ ha]
                          · intro habs
                            simp only [lookupPath_obj_cons, hT, hS, hI] at habs
                            cases hL : lookupKey iF "lifecycle" with
                            | some v => rw [hL] at habs; simp [lookupPath] at habs
                            | none =>
                                rw [eraseKey_of_not_mem iF "lifecycle" hL,
                                  setKey_lookup_self sF "index" (Json.obj iF) hI,
                                  setKey_lookup_self tF "settings" (Json.obj sF) hS,
                                  setKey_lookup_self t "template" (Json.obj tF) hT]
                          · exact keys_setKey t "template" _

theorem asObj_obj (fs : List (String × Json)) : asObj (Json.obj fs) = some fs := rfl

theorem rlb_eq_of_no_template (t : List (String × Json))
    (hT : lookupKey t "template" = none) : remove_lifecycle_body t = some t := by
  unfold remove_lifecycle_body; rw [hT]

theorem rlb_eq_of_no_settings (t tF : List (String × Json))
    (hT : lookupKey t "template" = some (Json.obj tF))
    (hS : lookupKey tF "settings" = none) : remove_lifecycle_body t = some t := by
  unfold remove_lifecycle_body
  rw [hT]; dsimp only; rw [asObj_obj]; dsimp only; rw [hS]

theorem rlb_eq_of_no_index (t tF sF : List (String × Json))
    (hT : lookupKey t "template" = some (Json.obj tF))
    (hS : lookupKey tF "settings" = some (Json.obj sF))
    (hI : lookupKey sF "index" = none) : remove_lifecycle_body t = some t := by
  unfold remove_lifecycle_body
  rw [hT]; dsimp only; rw [asObj_obj]; dsimp only
  rw [hS]; dsimp only; rw [asObj_obj]; dsimp only; rw [hI]

theorem rlb_eq_of_spine (t tF sF iF : List (String × Json))
    (hT : lookupKey t "template" = some (Json.obj tF))
    (hS : lookupKey tF "settings" = some (Json.obj sF))
    (hI : lookupKey sF "index" = some (Json.obj iF)) :
    remove_lifecycle_body t = some (setKey t "template" (Json.obj (setKey tF "settings"
      (Json.obj (setKey sF "index" (Json.obj (eraseKey iF "lifecycle"))))))) := by
  unfold remove_lifecycle_body
  rw [hT]; dsimp only; rw [asObj_obj]; dsimp only
  rw [hS]; dsimp only; rw [asObj_obj]; dsimp only
  rw [hI]; dsimp only; rw [asObj_obj]

theorem indexKeysNodup_spine (t tF sF iF : List (String × Json))
    (hT : lookupKey t "template" = some (Json.obj tF))
    (hS : lookupKey tF "settings" = some (Json.obj sF))
    (hI : lookupKey sF "index" = some (Json.obj iF))
    (hnd : indexKeysNodup t = true) : nodupB (keys iF) = true := by
  unfold indexKeysNodup at hnd
  rw [hT] at hnd
  simp only [Option.some_bind, asObj_obj] at hnd
  rw [hS] at hnd
  simp only [Option.some_bind, asObj_obj] at hnd
  rw [hI] at hnd
  simpa [asObj_obj] using hnd

/-- C2: the strip transformation is idempotent. -/
theorem strip_idempotent (t : List (String × Json)) (hnd : indexKeysNodup t = true) :
    (remove_lifecycle_body t).bind remove_lifecycle_body = remove_lifecycle_body t := by
  cases hT : lookupKey t "template" with
  | none =>
      have h1 := rlb_eq_of_no_template t hT
      rw [h1]
      simpa using h1
  | some vT =>
      cases hTo : asObj vT with
      | none =>
          have h1 : remove_lifecycle_body t = none := by
            unfold remove_lifecycle_body; rw [hT]; dsimp only; rw [hTo]
          rw [h1]
          simp
      | some tF =>
          rw [asObj_eq_some vT tF hTo] at hT
          cases hS : lookupKey tF "settings" with
          | none =>
              have h1 := rlb_eq_of_no_settings t tF hT hS
              rw [h1]
              simpa using h1
          | some vS =>
              cases hSo : asObj vS with
              | none =>
                  have h1 : remove_lifecycle_body t = none := by
                    unfold remove_lifecycle_body
                    rw [hT]; dsimp only; rw [asObj_obj]; dsimp only
                    rw [hS]; dsimp only; rw [hSo]
                  rw [h1]
                  simp
              | some sF =>
                  rw [asObj_eq_some vS sF hSo] at hS
                  cases hI : lookupKey sF "index" with
                  | none =>
                      have h1 := rlb_eq_of_no_index t tF sF hT hS hI
                      rw [h1]
                      simpa using h1
                  | some vI =>
                      cases hIo : asObj vI with
                      | none =>
                          have h1 : remove_lifecycle_body t = none := by
                            unfold remove_lifecycle_body
                            rw [hT]; dsimp only; rw [asObj_obj]; dsimp only
                            rw [hS]; dsimp only; rw [asObj_obj]; dsimp only
                            rw [hI]; dsimp only; rw [hIo]
                          rw [h1]
                          simp
                      | some iF =>
                          rw [asObj_eq_some vI iF hIo] at hI
                          have hnodup := indexKeysNodup_spine t tF sF iF hT hS hI hnd
                          rw [rlb_eq_of_spine t tF sF iF hT hS hI, Option.some_bind]
                          have e1 := lookupKey_setKey_self t "template"
                            (Json.obj (setKey tF "settings" (Json.obj (setKey sF "index"
                              (Json.obj (eraseKey iF "lifecycle")))))) (Json.obj tF) hT
                          have e2 := lookupKey_setKey_self tF "settings"
                            (Json.obj (setKey sF "index"
                              (Json.obj (eraseKey iF "lifecycle")))) (Json.obj sF) hS
                          have e3 := lookupKey_setKey_self sF "index"
                            (Json.obj (eraseKey iF "lifecycle")) (Json.obj iF) hI
                          rw [rlb_eq_of_spine _ _ _ _ e1 e2 e3]
                          rw [eraseKey_of_not_mem _ _
                            (lookupKey_eraseKey_self iF "lifecycle" hnodup)]
                          rw [setKey_lookup_self _ "index" _ e3,
                            setKey_lookup_self _ "settings" _ e2,
                            setKey_lookup_self _ "template" _ e1]

/-- C10: when the lifecycle key is present at the canonical path the strip
removes the whole `lifecycle` sub-tree (no path below it survives), and
when a parent segment of the path is absent the body is unchanged (no
empty parents are inserted). -/
theorem remove_lifecycle_removes_subtree (t t' : List (String × Json))
    (hnd : indexKeysNodup t = true) (h : remove_lifecycle_body t = some t') :
    (∀ rest : List String,
        lookupPath (Json.obj t') (["template", "settings", "index", "lifecycle"] ++ rest) = none) ∧
    (lookupPath (Json.obj t) ["template"] = none → t' = t) ∧
    (lookupPath (Json.obj t) ["template", "settings"] = none → t' = t) ∧
    (lookupPath (Json.obj t) ["template", "settings", "index"] = none → t' = t) := by
  unfold remove_lifecycle_body at h
  cases hT : lookupKey t "template" with
  | none =>
      rw [hT] at h
      simp at h
      subst h
      refine ⟨?_, fun _ => rfl, fun _ => rfl, fun _ => rfl⟩
      intro rest
      simp [lookupPath_obj_cons, hT]
  | some vT =>
      rw [hT] at h
      dsimp only at h
      cases hTo : asObj vT with
      | none => rw [hTo] at h; simp at h
      | some tF =>
          rw [hTo] at h
          dsimp only at h
          rw [asObj_eq_some vT tF hTo] at hT
          cases hS : lookupKey tF "settings" with
          | none =>
              rw [hS] at h
              simp at h
              subst h
              refine ⟨?_, fun _ => rfl, fun _ => rfl, fun _ => rfl⟩
              intro rest
              simp [lookupPath_obj_cons, hT, hS]
          | some vS =>
              rw [hS] at h
              dsimp only at h
              cases hSo : asObj vS with
              | none => rw [hSo] at h; simp at h
              | some sF =>
                  rw [hSo] at h
                  dsimp only at h
                  rw [asObj_eq_some vS sF hSo] at hS
                  cases hI : lookupKey sF "index" with
                  | none =>
                      rw [hI] at h
                      simp at h
                      subst h
                      refine ⟨?_, fun _ => rfl, fun _ => rfl, fun _ => rfl⟩
                      intro rest
                      simp [lookupPath_obj_cons, hT, hS, hI]
                  | some vI =>
                      rw [hI] at h
                      dsimp only at h
                      cases hIo : asObj vI with
                      | none => rw [hIo] at h; simp at h
                      | some iF =>
                          rw [hIo] at h
                          dsimp only at h
                          rw [asObj_eq_some vI iF hIo] at hI
                          simp at h
                          subst h
                          have hnodup := indexKeysNodup_spine t tF sF iF hT hS hI hnd
                          refine ⟨?_, ?_, ?_, ?_⟩
                          · intro rest
                            simp only [List.cons_append, List.nil_append]
                            rw [lookupPath_obj_cons,
                              lookupKey_setKey_self t "template" _ _ hT]
                            dsimp only
                            rw [lookupPath_obj_cons,
                              lookupKey_setKey_self tF "settings" _ _ hS]
                            dsimp only
                            rw [lookupPath_obj_cons,
                              lookupKey_setKey_self sF "index" _ _ hI]
                            dsimp only
                            rw [lookupPath_obj_cons,
                              lookupKey_eraseKey_self iF "lifecycle" hnodup]
                          · intro habs
                            simp [lookupPath_obj_cons, asObj_obj, hT, lookupPath] at habs
                          · intro habs
                            simp [lookupPath_obj_cons, asObj_obj, hT, hS, lookupPath] at habs
                          · intro habs
                            simp [lookupPath_obj_cons, asObj_obj, hT, hS, hI, lookupPath] at habs

/-- Witness for C1: concrete strip of `t1`; the unrelated `mappings` key
and the top-level key order survive. -/
theorem remove_lifecycle_frame_witness :
    lookupPath (Json.obj t1s) ["mappings"] = lookupPath (Json.obj t1) ["mappings"] ∧
    keys t1s = keys t1 :=
  ⟨(remove_lifecycle_frame t1 t1s (by rfl)).1 ["mappings"] (by rfl),
   (remove_lifecycle_frame t1 t1s (by rfl)).2.2⟩

/-- Witness for C2: idempotence at the concrete body `t1`. -/
theorem strip_idempotent_witness :
    (remove_lifecycle_body t1).bind remove_lifecycle_body = remove_lifecycle_body t1 :=
  strip_idempotent t1 (by rfl)

/-- Witness for C10: after stripping `t1` (whose lifecycle sub-tree holds
`name` and `rollover_alias`), nothing is left at or below the lifecycle path. -/
theorem remove_lifecycle_removes_subtree_witness :
    lookupPath (Json.obj t1s) (["template", "settings", "index", "lifecycle"] ++ ["name"]) = none ∧
    lookupPath (Json.obj t1s) (["template", "settings", "index", "lifecycle"] ++ []) = none :=
  ⟨(remove_lifecycle_removes_subtree t1 t1s (by rfl) (by rfl)).1 ["name"],
   (remove_lifecycle_removes_subtree t1 t1s (by rfl) (by rfl)).1 []⟩

/-! ## The regex characterization (C3) -/

theorem old_format_startsHere_iff (l : List Char) :
    old_format_startsHere l = true ↔
      ∃ d1 d2 d3 b, l = '_' :: 'c' :: d1 :: d2 :: d3 :: '_' :: b ∧
        d1.isDigit = true ∧ d2.isDigit = true ∧ d3.isDigit = true := by
  constructor
  · intro h
    rcases l with _ | ⟨a, _ | ⟨b, _ | ⟨d1, _ | ⟨d2, _ | ⟨d3, _ | ⟨e, rest⟩⟩⟩⟩⟩⟩ <;>
      simp [old_format_startsHere] at h
    refine ⟨d1, d2, d3, rest, ?_, ?_, ?_, ?_⟩ <;> simp_all
  · rintro ⟨d1, d2, d3, b, he, h1, h2, h3⟩
    subst he
    simp [old_format_startsHere, h1, h2, h3]

theorem old_format_match_iff (l : List Char) :
    old_format_match l = true ↔
      ∃ a d1 d2 d3 b, l = a ++ '_' :: 'c' :: d1 :: d2 :: d3 :: '_' :: b ∧
        d1.isDigit = true ∧ d2.isDigit = true ∧ d3.isDigit = true ∧ '\n' ∉ a := by
  induction l with
  | nil =>
      simp only [old_format_match]
      constructor
      · intro h; cases h
      · rintro ⟨a, d1, d2, d3, b, he, h1, h2, h3, h4⟩
        cases a <;> simp at he
  | cons c cs ih =>
      by_cases hs : old_format_startsHere (c :: cs) = true
      · obtain ⟨d1, d2, d3, b, he, h1, h2, h3⟩ := (old_format_startsHere_iff _).1 hs
        constructor
        · intro _
          exact ⟨[], d1, d2, d3, b, by simpa using he, h1, h2, h3, by simp⟩
        · intro _
          simp [old_format_match, hs]
      · by_cases hn : c = '\n'
        · subst hn
          constructor
          · intro h
            rw [old_format_match] at h
            simp [hs] at h
          · rintro ⟨a, d1, d2, d3, b, he, h1, h2, h3, h4⟩
            cases a with
            | nil =>
                exfalso
                exact hs ((old_format_startsHere_iff _).2
                  ⟨d1, d2, d3, b, by simpa using he, h1, h2, h3⟩)
            | cons x xs =>
                simp at he
                exfalso
                exact h4 (by simp [← he.1])
        · rw [old_format_match]
          simp only [hs, if_false, hn, if_false, Bool.false_eq_true]
          rw [ih]
          constructor
          · rintro ⟨a, d1, d2, d3, b, he, h1, h2, h3, h4⟩
            refine ⟨c :: a, d1, d2, d3, b, by simp [he], h1, h2, h3, ?_⟩
            simp [h4]
            exact fun hc => hn hc.symm
          · rintro ⟨a, d1, d2, d3, b, he, h1, h2, h3, h4⟩
            cases a with
            | nil =>
                exfalso
                exact hs ((old_format_startsHere_iff _).2
                  ⟨d1, d2, d3, b, by simpa using he, h1, h2, h3⟩)
            | cons x xs =>
                simp at he
                refine ⟨xs, d1, d2, d3, b, he.2, h1, h2, h3, ?_⟩
                simp at h4
                exact h4.2

/-- C3 (amended): the pattern filter is true iff some pattern contains
`_c`, exactly three digits, `_` at a position whose prefix holds no
newline; the empty list matches nothing; `logs_c123_v2` is selected,
`logs_v2` and `logs_c12_v2` are not — and `logs_c1234_v2` is NOT
selected (its only `_c` is followed by four digits before the next
underscore, so `re.match` finds no occurrence). -/
theorem matches_old_format_characterization (ps : List String) :
    (matches_old_format ps = true ↔
      ∃ p ∈ ps, ∃ a d1 d2 d3 b,
        p.data = a ++ '_' :: 'c' :: d1 :: d2 :: d3 :: '_' :: b ∧
        d1.isDigit = true ∧ d2.isDigit = true ∧ d3.isDigit = true ∧ '\n' ∉ a) ∧
    matches_old_format [] = false ∧
    matches_old_format ["logs_c123_v2"] = true ∧
    matches_old_format ["logs_v2"] = false ∧
    matches_old_format ["logs_c12_v2"] = false ∧
    matches_old_format ["logs_c1234_v2"] = false := by
  refine ⟨?_, by rfl, by rfl, by rfl, by rfl, by rfl⟩
  rw [matches_old_format, List.any_eq_true]
  constructor
  · rintro ⟨p, hp, hm⟩
    exact ⟨p, hp, (old_format_match_iff p.data).1 hm⟩
  · rintro ⟨p, hp, hm⟩
    exact ⟨p, hp, (old_format_match_iff p.data).2 hm⟩

/-- Counterexample to C3 as stated: the code does NOT select the pattern
`logs_c1234_v2`, which the claim says is selected. -/
theorem matches_old_format_c1234_cex :
    matches_old_format ["logs_c1234_v2"] = false := by rfl

/-- Witness for C3 (amended): two of the characterization's concrete
selections, read off the claim theorem. -/
theorem matches_old_format_characterization_witness :
    matches_old_format ["logs_c123_v2"] = true ∧
    matches_old_format ["logs_c1234_v2"] = false :=
  ⟨(matches_old_format_characterization []).2.2.1,
   (matches_old_format_characterization []).2.2.2.2.2⟩

/-- C7 (amended): `template_has_lifecycle`'s settings check is true iff
the `lifecycle` KEY is present under `template.settings.index`, whether or
not a policy name is present below it; the separate
`find_templates_with_ilm` check is true iff a truthy value sits at
`template.settings.index.lifecycle.name`. -/
theorem lifecycle_inspector_characterization (tF : List (String × Json)) (b : Bool)
    (h : has_lifecycle_settings tF = some b) :
    (b = true ↔ lookupPath (Json.obj tF) ["template", "settings", "index", "lifecycle"] ≠ none) ∧
    (∀ b2 : Bool, find_ilm_name tF = some b2 →
      (b2 = true ↔ ∃ v, lookupPath (Json.obj tF)
        ["template", "settings", "index", "lifecycle", "name"] = some v ∧ truthy v = true)) := by
  unfold has_lifecycle_settings at h
  cases hT : lookupKey tF "template" with
  | none =>
      rw [hT] at h
      simp at h
      subst h
      constructor
      · simp [lookupPath_obj_cons, asObj_obj, hT]
      · intro b2 h2
        unfold find_ilm_name at h2
        rw [hT] at h2
        simp at h2
        subst h2
        simp [lookupPath_obj_cons, asObj_obj, hT]
  | some v1 =>
      rw [hT] at h
      dsimp only at h
      cases hTo : asObj v1 with
      | none => rw [hTo] at h; simp at h
      | some f1 =>
          rw [hTo] at h
          dsimp only at h
          rw [asObj_eq_some v1 f1 hTo] at hT
          cases hS : lookupKey f1 "settings" with
          | none =>
              rw [hS] at h
              simp at h
              subst h
              constructor
              · simp [lookupPath_obj_cons, asObj_obj, hT, hS]
              · intro b2 h2
                unfold find_ilm_name at h2
                rw [hT] at h2
                dsimp only at h2
                rw [asObj_obj] at h2
                dsimp only at h2
                rw [hS] at h2
                simp at h2
                subst h2
                simp [lookupPath_obj_cons, asObj_obj, hT, hS]
          | some v2 =>
              rw [hS] at h
              dsimp only at h
              cases hSo : asObj v2 with
              | none => rw [hSo] at h; simp at h
              | some f2 =>
                  rw [hSo] at h
                  dsimp only at h
                  rw [asObj_eq_some v2 f2 hSo] at hS
                  cases hI : lookupKey f2 "index" with
                  | none =>
                      rw [hI] at h
                      simp at h
                      subst h
                      constructor
                      · simp [lookupPath_obj_cons, asObj_obj, hT, hS, hI]
                      · intro b2 h2
                        unfold find_ilm_name at h2
                        rw [hT] at h2
                        dsimp only at h2
                        rw [asObj_obj] at h2
                        dsimp only at h2
                        rw [hS] at h2
                        dsimp only at h2
                        rw [asObj_obj] at h2
                        dsimp only at h2
                        rw [hI] at h2
                        simp at h2
                        subst h2
                        simp [lookupPath_obj_cons, asObj_obj, hT, hS, hI]
                  | some v3 =>
                      rw [hI] at h
                      dsimp only at h
                      cases hIo : asObj v3 with
                      | none => rw [hIo] at h; simp at h
                      | some f3 =>
                          rw [hIo] at h
                          dsimp only at h
                          rw [asObj_eq_some v3 f3 hIo] at hI
                          simp at h
                          constructor
                          · cases hL : lookupKey f3 "lifecycle" with
                            | none =>
                                have hb : b = false := by
                                  rw [← h, hasKey, memB_eq_isSome_lookupKey, hL]
                                  rfl
                                subst hb
                                simp [lookupPath_obj_cons, asObj_obj, hT, hS, hI, hL]
                            | some v4 =>
                                have hb : b = true := by
                                  rw [← h, hasKey, memB_eq_isSome_lookupKey, hL]
                                  rfl
                                subst hb
                                simp [lookupPath_obj_cons, asObj_obj, hT, hS, hI, hL, lookupPath]
                          · intro b2 h2
                            unfold find_ilm_name at h2
                            rw [hT] at h2
                            dsimp only at h2
                            rw [asObj_obj] at h2
                            dsimp only at h2
                            rw [hS] at h2
                            dsimp only at h2
                            rw [asObj_obj] at h2
                            dsimp only at h2
                            rw [hI] at h2
                            dsimp only at h2
                            rw [asObj_obj] at h2
                            dsimp only at h2
                            cases hL : lookupKey f3 "lifecycle" with
                            | none =>
                                rw [hL] at h2
                                simp at h2
                                subst h2
                                simp [lookupPath_obj_cons, asObj_obj, hT, hS, hI, hL]
                            | some v4 =>
                                rw [hL] at h2
                                dsimp only at h2
                                cases hLo : asObj v4 with
                                | none => rw [hLo] at h2; simp at h2
                                | some f4 =>
                                    rw [hLo] at h2
                                    dsimp only at h2
                                    rw [asObj_eq_some v4 f4 hLo] at hL
                                    cases hN : lookupKey f4 "name" with
                                    | none =>
                                        rw [hN] at h2
                                        simp at h2
                                        subst h2
                                        simp [lookupPath_obj_cons, asObj_obj, hT, hS, hI, hL, hN]
                                    | some v =>
                                        rw [hN] at h2
                                        simp at h2
                                        subst h2
                                        simp [lookupPath_obj_cons, asObj_obj, hT, hS, hI, hL, hN,
                                          lookupPath]

/-- Counterexample to C7 as stated: on a settings tree whose `lifecycle`
sub-tree is present but holds no `name`, the inspector used by the
removal script answers true even though no lifecycle policy name is
present at the canonical nested location (and the standalone
`find_templates_with_ilm` check disagrees, answering false). -/
theorem lifecycle_inspector_no_name_cex :
    has_lifecycle_settings t7 = some true ∧
    lookupPath (Json.obj t7) ["template", "settings", "index", "lifecycle", "name"] = none ∧
    find_ilm_name t7 = some false :=
  ⟨rfl, rfl, rfl⟩

/-- Witness for C7 (amended) at a concrete body with a named policy. -/
theorem lifecycle_inspector_witness :
    (true = true ↔ lookupPath (Json.obj t1) ["template", "settings", "index", "lifecycle"] ≠ none) :=
  (lifecycle_inspector_characterization t1 true (by rfl)).1

/-! ## Executor and plan claims (C4, C5, C6) -/

/-- C4 (amended): with a non-empty eligible set, any operator input whose
whitespace-stripped lowercasing differs from the literal token `proceed`
aborts the run with zero write calls. -/
theorem execute_confirmation_gate (templates : List String) (inp : String)
    (net : String → Option Json) (write : String → Json → Bool)
    (h1 : templates ≠ []) (h2 : pyStripLower inp ≠ "proceed".data) :
    execute_removal templates inp net write = ExecResult.aborted ∧
    writesOf (execute_removal templates inp net write) = [] := by
  have hne : templates.isEmpty = false := by
    cases templates with
    | nil => exact absurd rfl h1
    | cons a l => rfl
  constructor
  · simp [execute_removal, hne, h2]
  · simp [execute_removal, hne, h2, writesOf]

/-- Witness for C4 (amended): input `no` aborts. -/
theorem execute_confirmation_gate_witness :
    execute_removal ["t1"] "no" net0 (fun _ _ => true) = ExecResult.aborted ∧
    writesOf (execute_removal ["t1"] "no" net0 (fun _ _ => true)) = [] :=
  execute_confirmation_gate ["t1"] "no" net0 (fun _ _ => true) (by decide) (by decide)

/-- Counterexample to C4 as stated: the input `" proceed "` is not an
exact case-insensitive match of the token (its lowercasing differs), yet
the run proceeds and issues a write. -/
theorem execute_confirmation_gate_cex :
    (writesOf (execute_removal ["t1"] " proceed " net0 (fun _ _ => true))).length = 1 ∧
    " proceed ".data.map Char.toLower ≠ "proceed".data := by
  exact ⟨rfl, by decide⟩

/-- C5, evaluated at the failing input: with eligible set `[A, B, C]` and
a transport failure on B's re-fetch GET, the run crashes right after A —
C is never attempted; with a failure on B's WRITE instead, the loop does
continue and the per-item outcomes are OK, FAIL, OK. -/
theorem execute_read_failure_kills_run :
    execute_removal ["A", "B", "C"] "proceed" netB (fun _ _ => true)
      = ExecResult.crashed [("/_index_template/A", body0)] [true] ∧
    execute_removal ["A", "B", "C"] "proceed" net0
        (fun p _ => decide (p ≠ "/_index_template/B"))
      = ExecResult.ran [("/_index_template/A", body0), ("/_index_template/B", body0),
          ("/_index_template/C", body0)] [true, false, true] :=
  ⟨rfl, rfl⟩

theorem plan_go_requests_are_get (templates : List String) (net : String → Option Json) :
    ∀ r ∈ (plan_go templates net).2, r.1 = "GET" := by
  induction templates with
  | nil => intro r hr; simp [plan_go] at hr
  | cons name rest ih =>
      intro r hr
      unfold plan_go at hr
      cases hrm : remove_lifecycle_from_template name (net name) with
      | none =>
          rw [hrm] at hr
          simp at hr
          simp [hr]
      | some x =>
          rw [hrm] at hr
          simp at hr
          cases hr with
          | inl h => simp [h]
          | inr h => exact ih r h

theorem plan_go_names (templates : List String) (net : String → Option Json)
    (ps : List (String × String × Json)) (h : (plan_go templates net).1 = PlanResult.plan ps) :
    ps.map (fun e => e.1) = templates := by
  induction templates generalizing ps with
  | nil =>
      simp [plan_go] at h
      simp [← h]
  | cons name rest ih =>
      unfold plan_go at h
      cases hrm : remove_lifecycle_from_template name (net name) with
      | none => rw [hrm] at h; simp at h
      | some x =>
          rw [hrm] at h
          dsimp only at h
          cases hr1 : (plan_go rest net).1 with
          | plan ps2 =>
              rw [hr1] at h
              simp at h
              rw [← h]
              simp [ih ps2 hr1]
          | crashedPlan ps2 => rw [hr1] at h; simp at h
          | noPlan => rw [hr1] at h; simp at h

/-- C6: plan mode issues only GET requests against the cluster (zero
writes); an empty eligible set produces no artifact (reported, not an
error); and a completed artifact holds exactly one read+write pair per
eligible template, in order. -/
theorem generate_dry_run_plan_purity (templates : List String) (net : String → Option Json) :
    (∀ r ∈ (generate_dry_run_plan templates net).2, r.1 = "GET") ∧
    (templates = [] → (generate_dry_run_plan templates net).1 = PlanResult.noPlan) ∧
    (∀ ps, (generate_dry_run_plan templates net).1 = PlanResult.plan ps →
        ps.map (fun e => e.1) = templates) := by
  cases templates with
  | nil =>
      refine ⟨?_, fun _ => rfl, ?_⟩
      · intro r hr
        simp [generate_dry_run_plan] at hr
      · intro ps hps
        simp [generate_dry_run_plan] at hps
  | cons name rest =>
      refine ⟨?_, ?_, ?_⟩
      · intro r hr
        exact plan_go_requests_are_get (name :: rest) net r
          (by simpa [generate_dry_run_plan] using hr)
      · intro he
        cases he
      · intro ps hps
        exact plan_go_names (name :: rest) net ps
          (by simpa [generate_dry_run_plan] using hps)

/-- Witness for C6: a one-template plan issues a single GET and records a
single read+write pair for that template. -/
theorem generate_dry_run_plan_purity_witness :
    (("GET", "/_index_template/t1") : String × String).1 = "GET" ∧
    ([("t1", "/_index_template/t1", body0)] : List (String × String × Json)).map
      (fun e => e.1) = ["t1"] :=
  ⟨(generate_dry_run_plan_purity ["t1"] net0).1 ("GET", "/_index_template/t1") (by decide),
   (generate_dry_run_plan_purity ["t1"] net0).2.2 [("t1", "/_index_template/t1", body0)] (by rfl)⟩

/-! ## Scan claims (C8, C9) -/

theorem memB_eq_false_iff (k : String) (l : List String) :
    memB k l = false ↔ k ∉ l := by
  induction l with
  | nil => simp [memB]
  | cons a as ih =>
      by_cases hk : k = a
      · simp [memB, hk]
      · simp [memB, hk, ih]

theorem asStrList_map_str (ps : List String) : asStrList (ps.map Json.str) = some ps := by
  induction ps with
  | nil => rfl
  | cons p rest ih => simp [asStrList, ih]

theorem getPatterns_mkEntry (nm : String) (ps : List String) :
    getPatterns (mkEntry nm ps) = some (nm, ps) := by
  simp [getPatterns, mkEntry, asObj, lookupKey, asArr, asStrList_map_str]

theorem scan_loop_mk (es : List (String × List String)) (inspect : String → Option Json)
    (hL : String → Bool)
    (hins : ∀ e ∈ es, template_has_lifecycle (inspect e.1) = some (hL e.1)) :
    scan_loop (es.map (fun e => mkEntry e.1 e.2)) inspect =
      some ((es.filter (fun e => matches_old_format e.2 && hL e.1)).map Prod.fst,
            (es.filter (fun e => matches_old_format e.2 && !hL e.1)).map Prod.fst) := by
  induction es with
  | nil => rfl
  | cons e rest ih =>
      obtain ⟨nm, ps⟩ := e
      have hins2 : ∀ e ∈ rest, template_has_lifecycle (inspect e.1) = some (hL e.1) :=
        fun e he => hins e (List.mem_cons_of_mem _ he)
      have hihd : template_has_lifecycle (inspect nm) = some (hL nm) :=
        hins (nm, ps) (List.mem_cons_self _ _)
      rw [List.map_cons]
      unfold scan_loop
      rw [getPatterns_mkEntry]
      dsimp only
      by_cases hm : matches_old_format ps = true
      · rw [if_pos hm, hihd]
        cases hb : hL nm with
        | true =>
            dsimp only
            rw [ih hins2]
            simp [List.filter_cons, hm, hb]
        | false =>
            dsimp only
            rw [ih hins2]
            simp [List.filter_cons, hm, hb]
      · rw [if_neg hm]
        rw [Bool.not_eq_true] at hm
        rw [ih hins2]
        simp [List.filter_cons, hm]

theorem scan_templates_mk (es : List (String × List String)) (inspect : String → Option Json)
    (hL : String → Bool)
    (hins : ∀ e ∈ es, template_has_lifecycle (inspect e.1) = some (hL e.1)) :
    scan_templates (some (mkCatalog es)) inspect =
      some ((es.filter (fun e => matches_old_format e.2 && hL e.1)).map Prod.fst,
            (es.filter (fun e => matches_old_format e.2 && !hL e.1)).map Prod.fst) := by
  have h1 : scan_templates (some (mkCatalog es)) inspect =
      scan_loop (es.map (fun e => mkEntry e.1 e.2)) inspect := rfl
  rw [h1]
  exact scan_loop_mk es inspect hL hins

theorem mem_filter_map_fst (es : List (String × List String))
    (P : String × List String → Bool) (nm : String) (ps : List String)
    (hnd : nodupB (es.map Prod.fst) = true) (hmem : (nm, ps) ∈ es) :
    nm ∈ (es.filter P).map Prod.fst ↔ P (nm, ps) = true := by
  induction es with
  | nil => cases hmem
  | cons e rest ih =>
      obtain ⟨nm2, ps2⟩ := e
      rw [List.map_cons, nodupB, Bool.and_eq_true, Bool.not_eq_true'] at hnd
      rcases List.mem_cons.mp hmem with heq | hmem2
      · injection heq with h1 h2
        subst h1; subst h2
        by_cases hp : P (nm, ps) = true
        · simp [List.filter_cons, hp]
        · rw [List.filter_cons, if_neg (by simpa using hp)]
          constructor
          · intro hin
            exfalso
            have hsub : nm ∈ rest.map Prod.fst := by
              rcases List.mem_map.mp hin with ⟨e2, he2, hfst⟩
              exact List.mem_map.mpr ⟨e2, List.mem_of_mem_filter he2, hfst⟩
            exact ((memB_eq_false_iff nm (rest.map Prod.fst)).1 hnd.1) hsub
          · intro hc
            exact absurd hc hp
      · have hnm2 : nm2 ≠ nm := fun hc =>
          ((memB_eq_false_iff nm2 (rest.map Prod.fst)).1 hnd.1)
            (List.mem_map.mpr ⟨(nm, ps), hmem2, hc.symm⟩)
        rw [List.filter_cons]
        by_cases hp2 : P (nm2, ps2) = true
        · rw [if_pos (by simpa using hp2)]
          rw [List.map_cons]
          rw [List.mem_cons]
          constructor
          · rintro (h | h)
            · exact absurd h.symm hnm2
            · exact (ih hnd.2 hmem2).1 h
          · intro h
            exact Or.inr ((ih hnd.2 hmem2).2 h)
        · rw [if_neg (by simpa using hp2)]
          exact ih hnd.2 hmem2

/-- C8: in a scan over a well-shaped catalog (distinct names, per-name
inspection responses), each fetched template lands in `candidates`
(eligible) iff its patterns match and it has a lifecycle, in `skipped`
iff its patterns match and it has none, and in neither list (excluded)
iff its patterns do not match — exactly one of the three. -/
theorem scan_partition (es : List (String × List String)) (inspect : String → Option Json)
    (hL : String → Bool) (nm : String) (ps : List String)
    (hnd : nodupB (es.map Prod.fst) = true)
    (hins : ∀ e ∈ es, template_has_lifecycle (inspect e.1) = some (hL e.1))
    (hmem : (nm, ps) ∈ es) :
    ∃ c s, scan_templates (some (mkCatalog es)) inspect = some (c, s) ∧
      (nm ∈ c ↔ (matches_old_format ps = true ∧ hL nm = true)) ∧
      (nm ∈ s ↔ (matches_old_format ps = true ∧ hL nm = false)) ∧
      (matches_old_format ps = false → nm ∉ c ∧ nm ∉ s) := by
  refine ⟨_, _, scan_templates_mk es inspect hL hins, ?_, ?_, ?_⟩
  · rw [mem_filter_map_fst es _ nm ps hnd hmem]
    simp [Bool.and_eq_true]
  · rw [mem_filter_map_fst es _ nm ps hnd hmem]
    simp [Bool.and_eq_true]
  · intro hm
    constructor
    · rw [mem_filter_map_fst es _ nm ps hnd hmem]
      simp [hm]
    · rw [mem_filter_map_fst es _ nm ps hnd hmem]
      simp [hm]

/-- Witness for C8 at the concrete catalog `es0`. -/
theorem scan_partition_witness :
    ∃ c s, scan_templates (some (mkCatalog es0)) inspect0 = some (c, s) ∧
      ("tmplA" ∈ c ↔ (matches_old_format ["logs_c123_v2"] = true ∧ hL0 "tmplA" = true)) ∧
      ("tmplA" ∈ s ↔ (matches_old_format ["logs_c123_v2"] = true ∧ hL0 "tmplA" = false)) ∧
      (matches_old_format ["logs_c123_v2"] = false → "tmplA" ∉ c ∧ "tmplA" ∉ s) :=
  scan_partition es0 inspect0 hL0 "tmplA" ["logs_c123_v2"]
    (by decide) (by decide) (by decide)

/-- C9 (amended): a failed initial catalog fetch yields a scan with zero
eligible templates; a failed per-candidate inspection read makes
`template_has_lifecycle` answer false (the error is only logged), so a
pattern-matching candidate whose inspection read fails is classified as
skipped rather than surfaced as a failure in the scan result. -/
theorem scan_failure_handling (inspect : String → Option Json) (nm : String)
    (ps : List String) (hm : matches_old_format ps = true) :
    scan_templates none inspect = some ([], []) ∧
    template_has_lifecycle none = some false ∧
    scan_templates (some (mkCatalog [(nm, ps)])) (fun _ => none) = some ([], [nm]) := by
  refine ⟨rfl, rfl, ?_⟩
  rw [scan_templates_mk [(nm, ps)] (fun _ => none) (fun _ => false) (fun e _ => rfl)]
  simp [List.filter_cons, hm]

/-- Witness for C9 (amended). -/
theorem scan_failure_handling_witness :
    scan_templates none inspect0 = some ([], []) ∧
    template_has_lifecycle none = some false ∧
    scan_templates (some (mkCatalog [("t2", ["x_c999_y"])])) (fun _ => none)
      = some ([], ["t2"]) :=
  scan_failure_handling inspect0 "t2" ["x_c999_y"] (by rfl)

/-- Counterexample to C9 as stated: the same catalog entry is eligible
when its inspection read succeeds but silently becomes `skipped` when the
inspection read fails — the failure changes the candidate's
classification instead of being surfaced in the scan result. -/
theorem scan_inspection_failure_cex :
    scan_templates (some (mkCatalog [("t1", ["a_c123_b"])])) net0 = some (["t1"], []) ∧
    scan_templates (some (mkCatalog [("t1", ["a_c123_b"])])) (fun _ => none)
      = some ([], ["t1"]) :=
  ⟨rfl, rfl⟩
